import Mathlib

/-!
Verification of the fightish renderer core against its specification.

The development shallowly embeds the data model of `src/buffer_structs.rs`,
the per-frame `FrameInfo` derivation of `SimpleLoader::new` in `src/model.rs`,
the built-in check model of `src/model.rs`, and the per-frame orchestration of
`RenderEngine::render` in `src/engine.rs` (capacity checks, instance-descriptor
upload, compute dispatch and draw), together with the fixed buffer capacities
chosen by `RenderEngine::new`.

Machine integers are modelled as `Nat` (for `u32`/`u64`/`usize`) and `Int`
(for `i32`); the explicit casts `as usize` and `as u32` that appear in the
source are modelled exactly (`intAsUsize`, `intAsU32`).  `f32` values are
carried opaquely by bit pattern: the code paths covered by the claims only
ever copy them, never compute with them.
-/

namespace Fightish

/-- An `f32` value carried by its raw IEEE-754 bit pattern.  The embedded code
only copies these values; no floating-point arithmetic occurs on the claims'
code paths. -/
structure F32 where
  bits : Nat
deriving DecidableEq

/-- A pair of `f32` (Rust `[f32; 2]`). -/
abbrev Vec2F := F32 × F32

/-- Four `f32` (Rust `[f32; 4]`). -/
abbrev Vec4F := F32 × F32 × F32 × F32

/-- A 4×4 `f32` matrix (Rust `[[f32; 4]; 4]`), row by row. -/
abbrev Mat4F := Vec4F × Vec4F × Vec4F × Vec4F

/-- The `f32` zero bit pattern. -/
def f32zero : F32 := ⟨0⟩

instance : Inhabited F32 := ⟨f32zero⟩

/-- All-zero `Vec4F`. -/
def vec4zero : Vec4F := (f32zero, f32zero, f32zero, f32zero)

/-- All-zero `Mat4F`. -/
def mat4zero : Mat4F := (vec4zero, vec4zero, vec4zero, vec4zero)

/-- Rust `v as usize` on a signed value (64-bit target): reduction modulo 2^64. -/
def intAsUsize (v : Int) : Nat := (v % (2 : Int) ^ 64).toNat

/-- Rust `v as u32` on an `i32` value: reduction modulo 2^32. -/
def intAsU32 (v : Int) : Nat := (v % (2 : Int) ^ 32).toNat

/-- Model vertex (buffer_structs.rs): a 2D position. -/
structure ModelVertex where
  pos : Vec2F
deriving DecidableEq

/-- Model segment (buffer_structs.rs): up to 3 vertex-index references plus an
unused sentinel, signed in case negative values mark special cases. -/
structure ModelSegment where
  idx : Int × Int × Int × Int
deriving DecidableEq

/-- Model shard (buffer_structs.rs): bounding box, color, a contiguous
`segment_range`, a `clip_depth` and a padding word. -/
structure ModelShard where
  bb : Vec4F
  color : Vec4F
  segment_range : Int × Int
  clip_depth : Nat
  filler : Nat
deriving DecidableEq

instance : Inhabited ModelShard := ⟨⟨vec4zero, vec4zero, (0, 0), 0, 0⟩⟩

/-- Model frame (buffer_structs.rs): a contiguous `shard_range` and
`segment_range`. -/
structure ModelFrame where
  shard_range : Int × Int
  segment_range : Int × Int
deriving DecidableEq

/-- Per-frame derived sizes (buffer_structs.rs `FrameInfo`, fields `u32`). -/
structure FrameInfo where
  clip_size : Nat
  shard_size : Nat
  segment_size : Nat
deriving DecidableEq

/-- Rust `#[derive(Default)]`-style default for `FrameInfo`: all fields zero. -/
instance : Inhabited FrameInfo := ⟨⟨0, 0, 0⟩⟩

/-- GPU instance descriptor (buffer_structs.rs `FrameObject`): world transform,
`frame_index : i32`, `clip_offset : u32`, `shard_offset : i32`,
`segment_offset : i32`. -/
structure FrameObject where
  world_tex_tf : Mat4F
  frame_index : Int
  clip_offset : Nat
  shard_offset : Int
  segment_offset : Int
deriving DecidableEq

instance : Inhabited FrameObject := ⟨⟨mat4zero, 0, 0, 0, 0⟩⟩

/-- The loader's in-memory model (model.rs `Model`). -/
structure Model where
  vertices : List ModelVertex
  segments : List ModelSegment
  shards : List ModelShard
  frames : List ModelFrame
deriving DecidableEq

/-- The Rust range iterator `lo .. hi` over signed values, as a list. -/
def intRangeList (lo hi : Int) : List Int :=
  (List.range (hi - lo).toNat).map (fun (k : Nat) => lo + (k : Int))

/-- Clip depths of the shards indexed by `lo .. hi`, in iteration order
(model.rs lines 32-33: `(range).map(|i| model.shards[i as usize].clip_depth)`). -/
def rangeClipDepths (shards : List ModelShard) (lo hi : Int) : List Nat :=
  (intRangeList lo hi).map (fun i => (shards.getD (intAsUsize i) default).clip_depth)

/-- Per-frame `FrameInfo` derivation from `SimpleLoader::new` (model.rs
lines 29-38): an empty `shard_range` yields the default (all-zero) info;
otherwise `clip_size` is `max().unwrap() + 1` over the clip depths of the
shards in the range (the fold with seed 0 agrees with the maximum of the
nonempty list of `u32` values, and `unwrap` is safe by the emptiness guard),
and the two sizes are the `i32` range widths cast `as u32`. -/
def frameInfoOf (shards : List ModelShard) (f : ModelFrame) : FrameInfo :=
  if f.shard_range.1 = f.shard_range.2 then default
  else
    { clip_size :=
        (rangeClipDepths shards f.shard_range.1 f.shard_range.2).foldl max 0 + 1
      shard_size := intAsU32 (f.shard_range.2 - f.shard_range.1)
      segment_size := intAsU32 (f.segment_range.2 - f.segment_range.1) }

/-- The frame-info list built by `SimpleLoader::new` (model.rs lines 26-38):
one `FrameInfo` per model frame. -/
def SimpleLoader.frameInfoList (m : Model) : List FrameInfo :=
  m.frames.map (frameInfoOf m.shards)

namespace check

/-- Built-in check model vertices (model.rs `check::VERTICES`); coordinates as
f32 bit patterns: 0.0, 0.5, 1.0, -0.5, 0.2. -/
def VERTICES : List ModelVertex :=
  [ ⟨(⟨0x00000000⟩, ⟨0x00000000⟩)⟩,
    ⟨(⟨0x3F000000⟩, ⟨0x3F800000⟩)⟩,
    ⟨(⟨0xBF000000⟩, ⟨0x3F000000⟩)⟩,
    ⟨(⟨0x00000000⟩, ⟨0xBF000000⟩)⟩,
    ⟨(⟨0x3E4CCCCD⟩, ⟨0x3F800000⟩)⟩ ]

/-- Built-in check model segments (model.rs `check::SEGMENTS`). -/
def SEGMENTS : List ModelSegment :=
  [ ⟨(0, 2, -1, -1)⟩,
    ⟨(2, 3, 0, -1)⟩,
    ⟨(3, 1, -1, -1)⟩,
    ⟨(1, 0, -1, -1)⟩,
    ⟨(0, 1, -1, -1)⟩,
    ⟨(1, 4, -1, -1)⟩,
    ⟨(4, 0, -1, -1)⟩ ]

/-- Built-in check model shards (model.rs `check::SHARDS`): 4 segments at clip
depth 0 and 3 segments at clip depth 1. -/
def SHARDS : List ModelShard :=
  [ { bb := (⟨0xBF800000⟩, ⟨0xBF800000⟩, ⟨0x3F800000⟩, ⟨0x3F800000⟩)
      color := (⟨0x3F800000⟩, ⟨0x00000000⟩, ⟨0x00000000⟩, ⟨0x3F800000⟩)
      segment_range := (0, 4)
      clip_depth := 0
      filler := 0 },
    { bb := (⟨0xBE4CCCCD⟩, ⟨0x3E4CCCCD⟩, ⟨0x3FA66666⟩, ⟨0x3FC00000⟩)
      color := (⟨0x00000000⟩, ⟨0x00000000⟩, ⟨0x3F800000⟩, ⟨0x3F800000⟩)
      segment_range := (4, 7)
      clip_depth := 1
      filler := 0 } ]

/-- Built-in check model frames (model.rs `check::FRAMES`): a single frame
covering both shards and all 7 segments. -/
def FRAMES : List ModelFrame :=
  [ { shard_range := (0, 2), segment_range := (0, 7) } ]

/-- The built-in check model (model.rs `check::model`). -/
def model : Model := ⟨VERTICES, SEGMENTS, SHARDS, FRAMES⟩

end check

/-- Modelled from the spec: the engine reads a constant `check::MODEL_INFO`
(engine.rs lines 40 and 299) whose definition is not among the provided
sources; only its fields are visible at the use sites (`requested_scene_objects`,
`requested_frame_shards`, `requested_frame_segments`, `num_vertices`,
`num_segments`, `num_shards`, `num_frames`).  The embedding keeps the engine
parametric in this record so every theorem about `render` holds for any value
of the missing constant. -/
structure ModelInfo where
  requested_scene_objects : Nat
  requested_frame_shards : Nat
  requested_frame_segments : Nat
  num_vertices : Nat
  num_segments : Nat
  num_shards : Nat
  num_frames : Nat
deriving DecidableEq

/-- Modelled from the spec: a concrete stand-in for the missing
`check::MODEL_INFO` constant.  The `num_*` fields are the lengths of the
check model's arrays; the `requested_*` capacities are not derivable from the
provided sources (the spec's adopted design has no fixed capacities at all),
so representative small values are chosen — the parametric theorems do not
depend on this choice. -/
def check_MODEL_INFO : ModelInfo :=
  { requested_scene_objects := 2
    requested_frame_shards := 64
    requested_frame_segments := 64
    num_vertices := 5
    num_segments := 7
    num_shards := 2
    num_frames := 1 }

/-- Modelled from the spec: the constant `check::FRAME_INFO` read by
`RenderEngine::render` is not among the provided sources.  Per the spec,
`FrameInfo` is "derived once per frame at load time"; the repository's own
derivation is `SimpleLoader::new` (model.rs), applied here to the check
model. -/
def check_FRAME_INFO : List FrameInfo := SimpleLoader.frameInfoList check.model

/-- A live scene instance as consumed by `RenderEngine::render` and built by
`AppState::create_scene_data` (lib.rs lines 60-63): a world transform and a
`frame_index`.  (The `scene.rs` file in the tree is an older snapshot whose
`Object` still carries `model_id`; `lib.rs` and `engine.rs` agree on the
fields used here.) -/
structure Object where
  world_local_tf : Mat4F
  frame_index : Int
deriving DecidableEq

instance : Inhabited Object := ⟨⟨mat4zero, 0⟩⟩

/-- Per-frame scene input (scene.rs `SceneData`): viewport, camera transform
and the ordered list of live instances. -/
structure SceneData where
  vp_x : Int
  vp_y : Int
  vp_width : Nat
  vp_height : Nat
  camera_tf : Mat4F
  objects : List Object
deriving DecidableEq

/-- Shard extent computed by `RenderEngine::render` (engine.rs lines 304-308):
the sum over live instances of the referenced frame's `FrameInfo.shard_size`. -/
def shardExtent (frame_info : List FrameInfo) (objects : List Object) : Nat :=
  (objects.map
    (fun o => (frame_info.getD (intAsUsize o.frame_index) default).shard_size)).sum

/-- Segment extent computed by `RenderEngine::render` (engine.rs lines
310-314).  Note the source maps `shard_size` here as well — not
`segment_size` — even though the value is compared against the segment
buffer's capacity. -/
def segmentExtent (frame_info : List FrameInfo) (objects : List Object) : Nat :=
  (objects.map
    (fun o => (frame_info.getD (intAsUsize o.frame_index) default).shard_size)).sum

/-- The frame's total segment demand as the spec words it: the sum over live
instances of the referenced frame's `FrameInfo.segment_size`.  Stated for
comparison with the source's `segmentExtent`. -/
def segmentDemand (frame_info : List FrameInfo) (objects : List Object) : Nat :=
  (objects.map
    (fun o => (frame_info.getD (intAsUsize o.frame_index) default).segment_size)).sum

/-- Instance-descriptor upload loop of `RenderEngine::render` (engine.rs lines
337-355), with the three running accumulators made explicit: each instance's
record is written with the pre-increment accumulator values, which are then
incremented by that instance's `FrameInfo` fields (`clip_offset : u32`;
`shard_offset`, `segment_offset : i32`, incremented by the sizes cast
`as i32`). -/
def writeObjectsFrom (frame_info : List FrameInfo) :
    List Object → Nat → Int → Int → List FrameObject
  | [], _, _, _ => []
  | o :: rest, clip_offset, shard_offset, segment_offset =>
    { world_tex_tf := o.world_local_tf
      frame_index := o.frame_index
      clip_offset := clip_offset
      shard_offset := shard_offset
      segment_offset := segment_offset } ::
      writeObjectsFrom frame_info rest
        (clip_offset + (frame_info.getD (intAsUsize o.frame_index) default).clip_size)
        (shard_offset + ((frame_info.getD (intAsUsize o.frame_index) default).shard_size : Int))
        (segment_offset + ((frame_info.getD (intAsUsize o.frame_index) default).segment_size : Int))

/-- The instance-descriptor buffer contents written by a frame: the loop of
engine.rs lines 337-355 started from zero accumulators; position `i` of the
list is the record written at buffer index `i`. -/
def writeObjects (frame_info : List FrameInfo) (objects : List Object) : List FrameObject :=
  writeObjectsFrom frame_info objects 0 0 0

/-- What a successful frame submits: the instance-descriptor buffer contents,
the compute dispatch size (`dispatch_workgroups(objects.len(), 1, 1)`,
engine.rs line 379) and the draw vertex count (`draw(0..(shard_extent * 6))`,
engine.rs line 411). -/
structure RenderOutput where
  objects_written : List FrameObject
  dispatch_workgroups : Nat
  draw_vertices : Nat
deriving DecidableEq

/-- RenderEngine::render (engine.rs lines 294-416) as a function of the scene
input.  The two `write_buffer_with` staging views (object buffer, world
uniforms) can fail to be obtained; their availability is passed in as the two
booleans.  Every `.error` value models an early return before
`queue.submit`, so an erroring frame submits no command sequence — no
compute dispatch and no draw; `.ok` carries what the single submitted
command sequence contains.  `render` takes `&self`: it mutates no engine
state. -/
def render (info : ModelInfo) (frame_info : List FrameInfo)
    (object_view_ok uniform_view_ok : Bool) (scene_data : SceneData) :
    Except String RenderOutput :=
  if scene_data.objects.length > info.requested_scene_objects then
    .error "Number of objects exceeds buffer size."
  else if shardExtent frame_info scene_data.objects > info.requested_frame_shards then
    .error "Number of frame shards exceeds buffer size."
  else if segmentExtent frame_info scene_data.objects > info.requested_frame_segments then
    .error "Number of frame segments exceeds buffer size."
  else if object_view_ok = false then
    .error "Unable to get object buffer view"
  else if uniform_view_ok = false then
    .error "Could not write to world uniforms buffer"
  else
    .ok { objects_written := writeObjects frame_info scene_data.objects
          dispatch_workgroups := scene_data.objects.length
          draw_vertices := shardExtent frame_info scene_data.objects * 6 }

/-- Element capacities of the three dynamically-filled buffers. -/
structure Capacities where
  object : Nat
  segment : Nat
  shard_vertex : Nat
deriving DecidableEq

/-- Buffer creation in `RenderEngine::new` (engine.rs lines 180-183 and
223-224): the segment frame buffer is created with
`requested_frame_segments` elements, the shard-vertex frame buffer with
`requested_frame_shards * 6` elements, and the scene object buffer with
`requested_scene_objects` elements.  These are the only creations of these
buffers in the program. -/
def newCapacities (info : ModelInfo) : Capacities :=
  { object := info.requested_scene_objects
    segment := info.requested_frame_segments
    shard_vertex := info.requested_frame_shards * 6 }

/-- RenderEngine::render borrows the engine immutably (`fn render(&self, ..)`)
and creates no buffer, so the buffer capacities after a rendered frame are
exactly those before it. -/
def renderCapacities (c : Capacities) (_scene : SceneData) : Capacities := c

/-- The `RedrawRequested` arm of `App::window_event` (lib.rs lines 152-154):
`self.render().err().map(|e| warn!("{e}"))`.  The first component is the
message logged (if the frame errored), the second whether the event loop is
told to exit — only the `CloseRequested` arm calls `event_loop.exit()`, so a
render failure never terminates the process. -/
def redrawOutcome (r : Except String RenderOutput) : Option String × Bool :=
  (match r with | .error e => some e | .ok _ => none, false)

/-! Concrete inputs used by witnesses and counterexamples. -/

/-- Two live instances, both referencing frame 0 — the spec's concrete
scenario, and the shape of the scene built by `AppState::create_scene_data`
(lib.rs lines 60-63).  The transforms play no role in sizing, so the zero
matrix stands in for the rotation matrices. -/
def demoObjects : List Object := [⟨mat4zero, 0⟩, ⟨mat4zero, 0⟩]

/-- A per-frame scene input carrying `demoObjects`. -/
def demoScene : SceneData := ⟨0, 0, 0, 0, mat4zero, demoObjects⟩

/-- The output `render` submits for `demoScene` under `check_MODEL_INFO`. -/
def demoRenderOutput : RenderOutput :=
  { objects_written := [⟨mat4zero, 0, 0, 0, 0⟩, ⟨mat4zero, 0, 2, 2, 7⟩]
    dispatch_workgroups := 2
    draw_vertices := 24 }

/-- The check model's single frame: 2 shards, 7 segments. -/
def demoFrame : ModelFrame := ⟨(0, 2), (0, 7)⟩

/-- A frame whose `shard_range` is empty. -/
def demoEmptyFrame : ModelFrame := ⟨(2, 2), (7, 7)⟩

/-- A scene with three live instances — one more than
`check_MODEL_INFO.requested_scene_objects`. -/
def threeObjectScene : SceneData :=
  ⟨0, 0, 0, 0, mat4zero, [default, default, default]⟩

/-- A scene with five live instances (the spec's capacity-doubling scenario). -/
def fiveObjectScene : SceneData :=
  ⟨0, 0, 0, 0, mat4zero, [default, default, default, default, default]⟩

/-- A scene with a single live instance of frame 0. -/
def singleObjectScene : SceneData := ⟨0, 0, 0, 0, mat4zero, [⟨mat4zero, 0⟩]⟩

/-- Modelled from the spec: a `ModelInfo` whose requested capacities are all 1,
matching the spec's statement that each dynamic buffer "starts at capacity 1". -/
def infoOne : ModelInfo := ⟨1, 1, 1, 5, 7, 2, 1⟩

/-- Modelled from the spec: a `ModelInfo` whose fixed segment capacity (2) lies
strictly between the check frame's shard count (2) and its segment count (7). -/
def infoTightSegments : ModelInfo := ⟨1, 2, 2, 5, 7, 2, 1⟩

/-! Helper lemmas. -/

/-- The seed of a `max`-fold is a lower bound of the fold. -/
lemma le_foldl_max (l : List Nat) (a : Nat) : a ≤ l.foldl max a := by
  induction l generalizing a with
  | nil => exact Nat.le_refl a
  | cons x xs ih => exact Nat.le_trans (Nat.le_max_left a x) (ih (max a x))

/-- Every member of a list is bounded by its `max`-fold. -/
lemma foldl_max_le_of_mem {l : List Nat} {x : Nat} (hx : x ∈ l) (a : Nat) :
    x ≤ l.foldl max a := by
  induction l generalizing a with
  | nil => cases hx
  | cons y ys ih =>
    rcases List.mem_cons.1 hx with rfl | hmem
    · exact Nat.le_trans (Nat.le_max_right a x) (le_foldl_max ys (max a x))
    · exact ih hmem (max a y)

/-- A `max`-fold is either its seed or a member of the list. -/
lemma foldl_max_eq_or_mem (l : List Nat) (a : Nat) :
    l.foldl max a = a ∨ l.foldl max a ∈ l := by
  induction l generalizing a with
  | nil => exact Or.inl rfl
  | cons x xs ih =>
    rcases ih (max a x) with h | h
    · rcases Nat.le_total a x with hax | hxa
      · right
        rw [List.foldl_cons, h, Nat.max_eq_right hax]
        exact List.mem_cons_self x xs
      · left
        rw [List.foldl_cons, h, Nat.max_eq_left hxa]
    · right
      rw [List.foldl_cons]
      exact List.mem_cons_of_mem x h

/-- Membership in the embedded signed range iterator. -/
lemma mem_intRangeList {lo hi i : Int} : i ∈ intRangeList lo hi ↔ lo ≤ i ∧ i < hi := by
  unfold intRangeList
  simp only [List.mem_map, List.mem_range]
  constructor
  · rintro ⟨k, hk, rfl⟩
    omega
  · intro h
    exact ⟨(i - lo).toNat, by omega, by omega⟩

/-- Length of the embedded signed range iterator. -/
lemma length_intRangeList (lo hi : Int) : (intRangeList lo hi).length = (hi - lo).toNat := by
  unfold intRangeList
  rw [List.length_map, List.length_range]

/-- An `as u32` cast of a value already in `u32` range is exact. -/
lemma intAsU32_of_lt {v : Int} (h0 : 0 ≤ v) (h : v < (2 : Int) ^ 32) :
    intAsU32 v = v.toNat := by
  unfold intAsU32
  rw [Int.emod_eq_of_lt h0 h]

/-- The descriptor-upload loop writes one record per instance. -/
lemma writeObjectsFrom_length (fi : List FrameInfo) (objs : List Object) :
    ∀ (c : Nat) (s g : Int), (writeObjectsFrom fi objs c s g).length = objs.length := by
  induction objs with
  | nil => intro c s g; rfl
  | cons o rest ih => intro c s g; simp [writeObjectsFrom, ih]

/-- Record `i` of the descriptor-upload loop started at accumulators
`(c, s, g)`: the instance's transform and frame index, with each offset equal
to its starting accumulator plus the sum of the corresponding `FrameInfo`
field over the preceding instances. -/
lemma writeObjectsFrom_getD (fi : List FrameInfo) (objs : List Object) :
    ∀ (i : Nat) (c : Nat) (s g : Int), i < objs.length →
    (writeObjectsFrom fi objs c s g).getD i default =
      { world_tex_tf := (objs.getD i default).world_local_tf
        frame_index := (objs.getD i default).frame_index
        clip_offset := c + ((objs.take i).map
          (fun o => (fi.getD (intAsUsize o.frame_index) default).clip_size)).sum
        shard_offset := s + ((objs.take i).map
          (fun o => ((fi.getD (intAsUsize o.frame_index) default).shard_size : Int))).sum
        segment_offset := g + ((objs.take i).map
          (fun o => ((fi.getD (intAsUsize o.frame_index) default).segment_size : Int))).sum } := by
  induction objs with
  | nil =>
    intro i c s g h
    exact absurd h (by simp)
  | cons o rest ih =>
    intro i c s g h
    cases i with
    | zero => simp [writeObjectsFrom]
    | succ i =>
      have h2 : i < rest.length := by simpa using h
      simp only [writeObjectsFrom, List.getD_cons_succ, List.take_succ_cons,
        List.map_cons, List.sum_cons]
      rw [ih i _ _ _ h2]
      simp [Nat.add_assoc, Int.add_assoc]

/-- Folding the frame-to-frame capacity transition over any sequence of scenes
leaves the capacities unchanged. -/
lemma foldl_renderCapacities (l : List SceneData) (c : Capacities) :
    l.foldl renderCapacities c = c := by
  induction l with
  | nil => rfl
  | cons x xs ih => simpa [renderCapacities] using ih

/-- Membership in the clip-depth list of a shard range. -/
lemma mem_rangeClipDepths {shards : List ModelShard} {lo hi : Int} {d : Nat} :
    d ∈ rangeClipDepths shards lo hi ↔
      ∃ i, lo ≤ i ∧ i < hi ∧ (shards.getD (intAsUsize i) default).clip_depth = d := by
  unfold rangeClipDepths
  simp only [List.mem_map]
  constructor
  · rintro ⟨i, hi, rfl⟩
    rcases mem_intRangeList.1 hi with ⟨h1, h2⟩
    exact ⟨i, h1, h2, rfl⟩
  · rintro ⟨i, h1, h2, rfl⟩
    exact ⟨i, mem_intRangeList.2 ⟨h1, h2⟩, rfl⟩

/-! Claim theorems. -/

/-- C1, counterexample.  The claim says `render` accepts any number of
instances and never returns an "exceeds buffer size" style error.  On the
code (engine.rs lines 301-303) a scene with more objects than the fixed
`requested_scene_objects` capacity — here three objects against the modelled
capacity 2, but the rejection exists for every finite capacity value — is
rejected with exactly such an error. -/
theorem C1_counterexample :
    render check_MODEL_INFO check_FRAME_INFO true true threeObjectScene =
      .error "Number of objects exceeds buffer size." := rfl

/-- C1, amended: `render` does reject over-capacity frames; a frame is
accepted (returns `Ok`) only if its live-instance count and both computed
extents fit within the fixed capacities `requested_scene_objects`,
`requested_frame_shards` and `requested_frame_segments` chosen at engine
creation (engine.rs lines 301-321) — there is no growth path. -/
theorem C1_amended_ok_implies_fits (info : ModelInfo) (frame_info : List FrameInfo)
    (ovOk uvOk : Bool) (scene : SceneData) (out : RenderOutput)
    (h : render info frame_info ovOk uvOk scene = .ok out) :
    scene.objects.length ≤ info.requested_scene_objects ∧
    shardExtent frame_info scene.objects ≤ info.requested_frame_shards ∧
    segmentExtent frame_info scene.objects ≤ info.requested_frame_segments := by
  unfold render at h
  by_cases h1 : scene.objects.length > info.requested_scene_objects
  · rw [if_pos h1] at h
    exact absurd h (by simp)
  rw [if_neg h1] at h
  by_cases h2 : shardExtent frame_info scene.objects > info.requested_frame_shards
  · rw [if_pos h2] at h
    exact absurd h (by simp)
  rw [if_neg h2] at h
  by_cases h3 : segmentExtent frame_info scene.objects > info.requested_frame_segments
  · rw [if_pos h3] at h
    exact absurd h (by simp)
  exact ⟨Nat.le_of_not_lt h1, Nat.le_of_not_lt h2, Nat.le_of_not_lt h3⟩

/-- C1, witness: the amended theorem applied to the accepted two-instance
check scenario. -/
theorem C1_witness :
    demoScene.objects.length ≤ check_MODEL_INFO.requested_scene_objects ∧
    shardExtent check_FRAME_INFO demoScene.objects ≤
      check_MODEL_INFO.requested_frame_shards ∧
    segmentExtent check_FRAME_INFO demoScene.objects ≤
      check_MODEL_INFO.requested_frame_segments :=
  C1_amended_ok_implies_fits check_MODEL_INFO check_FRAME_INFO true true demoScene
    demoRenderOutput rfl

/-- C2.  The claim says the segment demand is the sum of the referenced
frames' `FrameInfo.segment_size`.  The code (engine.rs lines 310-314) sums
`shard_size` instead: on one instance of the check frame (`shard_size` 2,
`segment_size` 7) the computed `segment_extent` is 2 while the claimed sum is
7, and in general the code's `segment_extent` coincides with its
`shard_extent` for every input.  (The shard-vertex half of the claim is
correct: the shard extent is the `shard_size` sum, scaled by 6 at the draw.) -/
theorem C2_segment_extent_sums_shard_size :
    shardExtent check_FRAME_INFO singleObjectScene.objects = 2 ∧
    segmentExtent check_FRAME_INFO singleObjectScene.objects = 2 ∧
    segmentDemand check_FRAME_INFO singleObjectScene.objects = 7 ∧
    segmentExtent check_FRAME_INFO singleObjectScene.objects ≠
      segmentDemand check_FRAME_INFO singleObjectScene.objects ∧
    (∀ (fi : List FrameInfo) (objs : List Object),
      segmentExtent fi objs = shardExtent fi objs) := by
  refine ⟨by decide, by decide, by decide, by decide, fun fi objs => rfl⟩

/-- C3.  The claim says an `Ok` frame has both expansion-buffer capacities at
least that frame's demand.  Because the capacity guard compares the
`shard_size` sum against the segment capacity (the engine.rs lines 310-321
slip), `render` returns `Ok` for a single check-frame instance under a
modelled fixed segment capacity of 2, although the frame's segment demand
(`segment_size` sum) is 7 — the claimed `Ok → capacity ≥ demand` safety
guarantee does not hold of the code. -/
theorem C3_ok_despite_capacity_shortfall :
    render infoTightSegments check_FRAME_INFO true true singleObjectScene =
      .ok { objects_written := [⟨mat4zero, 0, 0, 0, 0⟩]
            dispatch_workgroups := 1
            draw_vertices := 12 } ∧
    (newCapacities infoTightSegments).segment = 2 ∧
    segmentDemand check_FRAME_INFO singleObjectScene.objects = 7 ∧
    ¬ segmentDemand check_FRAME_INFO singleObjectScene.objects ≤
      (newCapacities infoTightSegments).segment := by
  refine ⟨rfl, rfl, by decide, by decide⟩

/-- C4, counterexample.  The claim says each dynamic buffer starts at
capacity 1 and, within a frame demanding 5 instances, doubles 1 → 2 → 4 → 8.
On the code, capacities are fixed at creation (engine.rs lines 180-183,
223-224) and `render` mutates nothing: with all capacities 1, a five-instance
frame is rejected outright and the instance-descriptor capacity stays 1, not
8. -/
theorem C4_counterexample :
    newCapacities infoOne = ⟨1, 1, 6⟩ ∧
    render infoOne check_FRAME_INFO true true fiveObjectScene =
      .error "Number of objects exceeds buffer size." ∧
    renderCapacities (newCapacities infoOne) fiveObjectScene = ⟨1, 1, 6⟩ ∧
    (renderCapacities (newCapacities infoOne) fiveObjectScene).object ≠ 8 := by
  refine ⟨by decide, rfl, by decide, by decide⟩

/-- C4, amended: each dynamic buffer's element capacity is fixed once by
`RenderEngine::new` (instance descriptors: `requested_scene_objects`;
segments: `requested_frame_segments`; shard vertices:
`6 × requested_frame_shards`) and is unchanged by any sequence of rendered
frames; a frame whose instance count exceeds the fixed capacity is rejected
with an error rather than accommodated by growth. -/
theorem C4_amended_fixed_capacities (info : ModelInfo) (frame_info : List FrameInfo)
    (ovOk uvOk : Bool) (scene : SceneData) (frames : List SceneData)
    (h : scene.objects.length > info.requested_scene_objects) :
    frames.foldl renderCapacities (newCapacities info) = newCapacities info ∧
    render info frame_info ovOk uvOk scene =
      .error "Number of objects exceeds buffer size." := by
  refine ⟨foldl_renderCapacities frames (newCapacities info), ?_⟩
  unfold render
  rw [if_pos h]

/-- C4, witness: the amended theorem at the five-instance scene against
capacity 1. -/
theorem C4_witness :
    [fiveObjectScene].foldl renderCapacities (newCapacities infoOne) =
      newCapacities infoOne ∧
    render infoOne check_FRAME_INFO true true fiveObjectScene =
      .error "Number of objects exceeds buffer size." :=
  C4_amended_fixed_capacities infoOne check_FRAME_INFO true true fiveObjectScene
    [fiveObjectScene] (by decide)

/-- C5.  The instance-descriptor buffer is written in ascending instance
index order — record `i` of the written list belongs to instance `i` — and
record `i` carries the pre-increment running sums of `clip_size`,
`shard_size` and `segment_size` of instances `0..i` exclusive (so instance 0
gets offsets `(0, 0, 0)`, the empty sums). -/
theorem C5_descriptor_prefix_sums (frame_info : List FrameInfo) (objs : List Object)
    (i : Nat) (h : i < objs.length) :
    (writeObjects frame_info objs).length = objs.length ∧
    (writeObjects frame_info objs).getD i default =
      { world_tex_tf := (objs.getD i default).world_local_tf
        frame_index := (objs.getD i default).frame_index
        clip_offset := ((objs.take i).map
          (fun o => (frame_info.getD (intAsUsize o.frame_index) default).clip_size)).sum
        shard_offset := ((objs.take i).map
          (fun o => ((frame_info.getD (intAsUsize o.frame_index) default).shard_size : Int))).sum
        segment_offset := ((objs.take i).map
          (fun o => ((frame_info.getD (intAsUsize o.frame_index) default).segment_size : Int))).sum } := by
  refine ⟨writeObjectsFrom_length frame_info objs 0 0 0, ?_⟩
  have hrec := writeObjectsFrom_getD frame_info objs i 0 0 0 h
  simpa using hrec

/-- C5, witness: instance 1 of the two-instance check scenario. -/
theorem C5_witness :
    (writeObjects check_FRAME_INFO demoObjects).length = demoObjects.length ∧
    (writeObjects check_FRAME_INFO demoObjects).getD 1 default =
      { world_tex_tf := (demoObjects.getD 1 default).world_local_tf
        frame_index := (demoObjects.getD 1 default).frame_index
        clip_offset := ((demoObjects.take 1).map
          (fun o => (check_FRAME_INFO.getD (intAsUsize o.frame_index) default).clip_size)).sum
        shard_offset := ((demoObjects.take 1).map
          (fun o => ((check_FRAME_INFO.getD (intAsUsize o.frame_index) default).shard_size : Int))).sum
        segment_offset := ((demoObjects.take 1).map
          (fun o => ((check_FRAME_INFO.getD (intAsUsize o.frame_index) default).segment_size : Int))).sum } :=
  C5_descriptor_prefix_sums check_FRAME_INFO demoObjects 1 (by decide)

/-- C6.  For a frame with a nonempty, numerically well-formed `shard_range`,
the loader-derived `FrameInfo` has `clip_size` equal to 1 plus the maximum
`clip_depth` among the shards of the range (characterised: the value is
attained on the range, and bounds every depth in the range), `shard_size`
equal to the number of shards in the range, and `segment_size` equal to the
number of segments in the frame's `segment_range`. -/
theorem C6_frame_info_derivation (m : Model) (f : ModelFrame)
    (hne : f.shard_range.1 < f.shard_range.2)
    (hw : f.shard_range.2 - f.shard_range.1 < (2 : Int) ^ 32)
    (hsle : f.segment_range.1 ≤ f.segment_range.2)
    (hsw : f.segment_range.2 - f.segment_range.1 < (2 : Int) ^ 32) :
    (∃ i, f.shard_range.1 ≤ i ∧ i < f.shard_range.2 ∧
      (frameInfoOf m.shards f).clip_size =
        1 + (m.shards.getD (intAsUsize i) default).clip_depth) ∧
    (∀ i, f.shard_range.1 ≤ i → i < f.shard_range.2 →
      (m.shards.getD (intAsUsize i) default).clip_depth + 1 ≤
        (frameInfoOf m.shards f).clip_size) ∧
    (frameInfoOf m.shards f).shard_size =
      (intRangeList f.shard_range.1 f.shard_range.2).length ∧
    (frameInfoOf m.shards f).segment_size =
      (intRangeList f.segment_range.1 f.segment_range.2).length := by
  have hcond : ¬ f.shard_range.1 = f.shard_range.2 := ne_of_lt hne
  have hclip : (frameInfoOf m.shards f).clip_size =
      (rangeClipDepths m.shards f.shard_range.1 f.shard_range.2).foldl max 0 + 1 := by
    unfold frameInfoOf
    rw [if_neg hcond]
  have hshard : (frameInfoOf m.shards f).shard_size =
      intAsU32 (f.shard_range.2 - f.shard_range.1) := by
    unfold frameInfoOf
    rw [if_neg hcond]
  have hsegment : (frameInfoOf m.shards f).segment_size =
      intAsU32 (f.segment_range.2 - f.segment_range.1) := by
    unfold frameInfoOf
    rw [if_neg hcond]
  refine ⟨?_, ?_, ?_, ?_⟩
  · rcases foldl_max_eq_or_mem
      (rangeClipDepths m.shards f.shard_range.1 f.shard_range.2) 0 with h0 | hmem
    · refine ⟨f.shard_range.1, le_refl _, hne, ?_⟩
      have hdm : (m.shards.getD (intAsUsize f.shard_range.1) default).clip_depth ∈
          rangeClipDepths m.shards f.shard_range.1 f.shard_range.2 :=
        mem_rangeClipDepths.2 ⟨f.shard_range.1, le_refl _, hne, rfl⟩
      have hle := foldl_max_le_of_mem hdm 0
      rw [h0] at hle
      rw [hclip, h0, Nat.le_zero.mp hle]
    · rcases mem_rangeClipDepths.1 hmem with ⟨i, h1, h2, hdi⟩
      refine ⟨i, h1, h2, ?_⟩
      rw [hclip, hdi, Nat.add_comm]
  · intro i h1 h2
    have hdm : (m.shards.getD (intAsUsize i) default).clip_depth ∈
        rangeClipDepths m.shards f.shard_range.1 f.shard_range.2 :=
      mem_rangeClipDepths.2 ⟨i, h1, h2, rfl⟩
    rw [hclip]
    exact Nat.add_le_add_right (foldl_max_le_of_mem hdm 0) 1
  · rw [hshard, intAsU32_of_lt (by omega) hw, length_intRangeList]
  · rw [hsegment, intAsU32_of_lt (by omega) hsw, length_intRangeList]

/-- C6, witness: the check model's single frame. -/
theorem C6_witness :
    (∃ i, demoFrame.shard_range.1 ≤ i ∧ i < demoFrame.shard_range.2 ∧
      (frameInfoOf check.model.shards demoFrame).clip_size =
        1 + (check.model.shards.getD (intAsUsize i) default).clip_depth) ∧
    (∀ i, demoFrame.shard_range.1 ≤ i → i < demoFrame.shard_range.2 →
      (check.model.shards.getD (intAsUsize i) default).clip_depth + 1 ≤
        (frameInfoOf check.model.shards demoFrame).clip_size) ∧
    (frameInfoOf check.model.shards demoFrame).shard_size =
      (intRangeList demoFrame.shard_range.1 demoFrame.shard_range.2).length ∧
    (frameInfoOf check.model.shards demoFrame).segment_size =
      (intRangeList demoFrame.segment_range.1 demoFrame.segment_range.2).length :=
  C6_frame_info_derivation check.model demoFrame (by decide) (by decide) (by decide)
    (by decide)

/-- C7.  The spec's concrete scenario on the code: the derived `FrameInfo` is
`{clip_size 2, shard_size 2, segment_size 7}`, the written descriptor offsets
are `(0, 0, 0)` and `(2, 2, 7)`, and the shard-vertex demand is 24 — but the
code's computed segment extent for the two instances is 4 (it sums
`shard_size`), not the claimed segment-buffer demand 14 (the `segment_size`
sum, which the spec states and which the offsets embody). -/
theorem C7_check_scenario_eval :
    check_FRAME_INFO = [{ clip_size := 2, shard_size := 2, segment_size := 7 }] ∧
    writeObjects check_FRAME_INFO demoObjects =
      [⟨mat4zero, 0, 0, 0, 0⟩, ⟨mat4zero, 0, 2, 2, 7⟩] ∧
    shardExtent check_FRAME_INFO demoObjects * 6 = 24 ∧
    segmentDemand check_FRAME_INFO demoObjects = 14 ∧
    segmentExtent check_FRAME_INFO demoObjects = 4 ∧
    segmentExtent check_FRAME_INFO demoObjects ≠ 14 := by
  refine ⟨by decide, by decide, by decide, by decide, by decide, by decide⟩

/-- C8.  Whenever `render` accepts a frame, the submitted draw covers exactly
`6 × total_shard_count` vertices, `total_shard_count` being the sum of the
referenced frames' `FrameInfo.shard_size` over the live instances
(engine.rs lines 304-308 and 411). -/
theorem C8_draw_vertex_count (info : ModelInfo) (frame_info : List FrameInfo)
    (ovOk uvOk : Bool) (scene : SceneData) (out : RenderOutput)
    (h : render info frame_info ovOk uvOk scene = .ok out) :
    out.draw_vertices =
      6 * (scene.objects.map
        (fun o => (frame_info.getD (intAsUsize o.frame_index) default).shard_size)).sum := by
  unfold render at h
  by_cases h1 : scene.objects.length > info.requested_scene_objects
  · rw [if_pos h1] at h
    exact absurd h (by simp)
  rw [if_neg h1] at h
  by_cases h2 : shardExtent frame_info scene.objects > info.requested_frame_shards
  · rw [if_pos h2] at h
    exact absurd h (by simp)
  rw [if_neg h2] at h
  by_cases h3 : segmentExtent frame_info scene.objects > info.requested_frame_segments
  · rw [if_pos h3] at h
    exact absurd h (by simp)
  rw [if_neg h3] at h
  by_cases h4 : ovOk = false
  · rw [if_pos h4] at h
    exact absurd h (by simp)
  rw [if_neg h4] at h
  by_cases h5 : uvOk = false
  · rw [if_pos h5] at h
    exact absurd h (by simp)
  rw [if_neg h5] at h
  injection h with h
  rw [← h]
  simp [shardExtent, Nat.mul_comm]

/-- C8, witness: the accepted two-instance check scenario draws 24 vertices. -/
theorem C8_witness :
    demoRenderOutput.draw_vertices =
      6 * (demoScene.objects.map
        (fun o => (check_FRAME_INFO.getD (intAsUsize o.frame_index) default).shard_size)).sum :=
  C8_draw_vertex_count check_MODEL_INFO check_FRAME_INFO true true demoScene
    demoRenderOutput rfl

/-- C9.  When the object-buffer staging view cannot be obtained, `render`
returns an error before `queue.submit` — the frame submits no command
sequence, so no compute dispatch and no draw — and the caller's redraw
handler logs the message and does not exit the event loop; `render` borrows
the engine immutably, so the next frame retries from unchanged engine state. -/
theorem C9_write_failure_skips_frame (info : ModelInfo) (frame_info : List FrameInfo)
    (uvOk : Bool) (scene : SceneData)
    (h1 : scene.objects.length ≤ info.requested_scene_objects)
    (h2 : shardExtent frame_info scene.objects ≤ info.requested_frame_shards)
    (h3 : segmentExtent frame_info scene.objects ≤ info.requested_frame_segments) :
    render info frame_info false uvOk scene =
      .error "Unable to get object buffer view" ∧
    (∀ out, render info frame_info false uvOk scene ≠ .ok out) ∧
    redrawOutcome (render info frame_info false uvOk scene) =
      (some "Unable to get object buffer view", false) := by
  have e : render info frame_info false uvOk scene =
      .error "Unable to get object buffer view" := by
    unfold render
    rw [if_neg (by omega), if_neg (by omega), if_neg (by omega), if_pos rfl]
  refine ⟨e, ?_, ?_⟩
  · intro out hc
    rw [e] at hc
    exact Except.noConfusion hc
  · rw [e]
    rfl

/-- C9, witness: the two-instance check scenario with an unavailable object
buffer view. -/
theorem C9_witness :
    render check_MODEL_INFO check_FRAME_INFO false true demoScene =
      .error "Unable to get object buffer view" ∧
    (∀ out, render check_MODEL_INFO check_FRAME_INFO false true demoScene ≠ .ok out) ∧
    redrawOutcome (render check_MODEL_INFO check_FRAME_INFO false true demoScene) =
      (some "Unable to get object buffer view", false) :=
  C9_write_failure_skips_frame check_MODEL_INFO check_FRAME_INFO true demoScene
    (by decide) (by decide) (by decide)

/-- C10.  A frame with an empty `shard_range` gets the all-zero `FrameInfo`
(the early return of model.rs line 30 — no maximum is ever taken over the
empty range), and an instance referencing such a frame contributes nothing to
either computed extent, to the spec-level segment demand, or to the offsets
of subsequent instances in the descriptor buffer. -/
theorem C10_empty_shard_range (shards : List ModelShard) (f : ModelFrame)
    (h : f.shard_range.1 = f.shard_range.2) :
    frameInfoOf shards f = ⟨0, 0, 0⟩ ∧
    ∀ (fi : List FrameInfo) (objs : List Object) (o : Object),
      fi.getD (intAsUsize o.frame_index) default = frameInfoOf shards f →
      shardExtent fi (o :: objs) = shardExtent fi objs ∧
      segmentExtent fi (o :: objs) = segmentExtent fi objs ∧
      segmentDemand fi (o :: objs) = segmentDemand fi objs ∧
      writeObjects fi (o :: objs) =
        { world_tex_tf := o.world_local_tf
          frame_index := o.frame_index
          clip_offset := 0
          shard_offset := 0
          segment_offset := 0 } :: writeObjects fi objs := by
  have hz : frameInfoOf shards f = ⟨0, 0, 0⟩ := by
    unfold frameInfoOf
    rw [if_pos h]
    rfl
  refine ⟨hz, ?_⟩
  intro fi objs o ho
  rw [hz] at ho
  simp only [List.getD_eq_getElem?_getD] at ho
  refine ⟨?_, ?_, ?_, ?_⟩
  · simp [shardExtent, ho]
  · simp [segmentExtent, ho]
  · simp [segmentDemand, ho]
  · simp [writeObjects, writeObjectsFrom, ho]

/-- C10, witness: an empty-range frame over the check model's shards,
prepended to a one-instance scene. -/
theorem C10_witness :
    frameInfoOf check.model.shards demoEmptyFrame = ⟨0, 0, 0⟩ ∧
    ∀ (fi : List FrameInfo) (objs : List Object) (o : Object),
      fi.getD (intAsUsize o.frame_index) default =
        frameInfoOf check.model.shards demoEmptyFrame →
      shardExtent fi (o :: objs) = shardExtent fi objs ∧
      segmentExtent fi (o :: objs) = segmentExtent fi objs ∧
      segmentDemand fi (o :: objs) = segmentDemand fi objs ∧
      writeObjects fi (o :: objs) =
        { world_tex_tf := o.world_local_tf
          frame_index := o.frame_index
          clip_offset := 0
          shard_offset := 0
          segment_offset := 0 } :: writeObjects fi objs :=
  C10_empty_shard_range check.model.shards demoEmptyFrame (by decide)

end Fightish
